import Mathlib

/-!
Verification of the ingestion/state-resolution pipeline of the customer-support
backend (src/backend/src).  Each Python component that the claims mention is
shallowly embedded as an executable Lean definition: the database is a record of
row lists, SQL statements become list operations, `NOW()` becomes an explicit
`Nat` timestamp parameter, and `uuid4()` becomes a fresh-id counter threaded
through the state.  Theorems about these definitions settle the claims.
-/

set_option maxRecDepth 4000

/-- Python's `sub in hay` substring test, used by the classifier's
`keyword in text_lower` checks. -/
def pyContains (hay sub : String) : Bool :=
  hay.toList.tails.any (fun t => sub.toList.isPrefixOf t)

/-- Python's `str.lower()`, modelled character-wise (`Char.toLower` lower-cases
exactly the ASCII letters, which is what `.lower()` does on the ASCII texts and
keyword tables involved here). -/
def pyLower (s : String) : String :=
  String.mk (s.toList.map Char.toLower)

/-- The keyword table `ESCALATION_KEYWORDS` of `src/backend/src/agent/prompts.py`,
modelled as a function from category name to phrase list. -/
def ESCALATION_KEYWORDS : String → List String
  | "pricing" => ["pricing", "how much", "cost", "price", "quote", "rate", "fee", "charge",
      "payment plan"]
  | "refund" => ["refund", "money back", "cancel subscription", "charge back", "return payment",
      "reimbursement"]
  | "legal" => ["lawyer", "legal", "sue", "attorney", "litigation", "lawsuit", "legal action",
      "court"]
  | "human_request" => ["talk to human", "speak to person", "human agent", "real person",
      "representative", "talk to someone", "human", "agent", "operator", "support team"]
  | "profanity" => ["damn", "hell", "crap", "shit", "fuck", "ass", "bitch", "bastard"]
  | "aggressive" => ["stupid", "idiotic", "useless", "worthless", "pathetic", "incompetent",
      "garbage", "trash"]
  | _ => []

/-- True when some phrase of the category occurs as a substring of the
(lower-cased) text, mirroring the `for keyword in ...: if keyword in text_lower`
loops of `prompts.py`. -/
def matchesCategory (category : String) (textLower : String) : Bool :=
  (ESCALATION_KEYWORDS category).any (fun w => pyContains textLower w)

/-- `detect_profanity` of `prompts.py`: profanity keywords, then aggressive
keywords, over the lower-cased text. -/
def detect_profanity (text : String) : Bool :=
  matchesCategory "profanity" (pyLower text) || matchesCategory "aggressive" (pyLower text)

/-- `detect_explicit_human_request` of `prompts.py`. -/
def detect_explicit_human_request (text : String) : Bool :=
  matchesCategory "human_request" (pyLower text)

/-- `detect_escalation_trigger` of `prompts.py`: checks pricing, refund, legal,
profanity/aggressive, explicit-human-request in that source order, returning on
the first category that matches; no match yields `(false, none)`. -/
def detect_escalation_trigger (text : String) : Bool × Option String :=
  let textLower := (pyLower text)
  if matchesCategory "pricing" textLower then (true, some "pricing_inquiry")
  else if matchesCategory "refund" textLower then (true, some "refund_request")
  else if matchesCategory "legal" textLower then (true, some "legal_matter")
  else if detect_profanity text then (true, some "profanity_aggressive_language")
  else if detect_explicit_human_request text then (true, some "explicit_human_request")
  else (false, none)

/-- C2: the escalation classifier evaluates pricing, refund, legal,
profanity/aggressive, explicit-human-request in this fixed order with first
match winning (case-insensitive substring matching via `pyContains` on the
lower-cased text); any text containing a pricing keyword — in particular one
also containing a legal keyword — yields escalate with reason
"pricing_inquiry", and a text matching no category yields escalate = false. -/
theorem detect_escalation_trigger_first_match_order (text : String) :
    (matchesCategory "pricing" (pyLower text) = true →
      detect_escalation_trigger text = (true, some "pricing_inquiry")) ∧
    (matchesCategory "pricing" (pyLower text) = false →
      matchesCategory "refund" (pyLower text) = true →
      detect_escalation_trigger text = (true, some "refund_request")) ∧
    (matchesCategory "pricing" (pyLower text) = false →
      matchesCategory "refund" (pyLower text) = false →
      matchesCategory "legal" (pyLower text) = true →
      detect_escalation_trigger text = (true, some "legal_matter")) ∧
    (matchesCategory "pricing" (pyLower text) = false →
      matchesCategory "refund" (pyLower text) = false →
      matchesCategory "legal" (pyLower text) = false →
      detect_profanity text = true →
      detect_escalation_trigger text = (true, some "profanity_aggressive_language")) ∧
    (matchesCategory "pricing" (pyLower text) = false →
      matchesCategory "refund" (pyLower text) = false →
      matchesCategory "legal" (pyLower text) = false →
      detect_profanity text = false →
      detect_explicit_human_request text = true →
      detect_escalation_trigger text = (true, some "explicit_human_request")) ∧
    (matchesCategory "pricing" (pyLower text) = false →
      matchesCategory "refund" (pyLower text) = false →
      matchesCategory "legal" (pyLower text) = false →
      detect_profanity text = false →
      detect_explicit_human_request text = false →
      detect_escalation_trigger text = (false, none)) := by
  unfold detect_escalation_trigger
  refine ⟨?_, ?_, ?_, ?_, ?_, ?_⟩ <;> intros <;> simp_all

/-- Witness for C2: "What is the price? I will sue you" contains both a pricing
keyword ("price") and a legal keyword ("sue"), and the classifier reports
"pricing_inquiry", not "legal_matter". -/
theorem detect_escalation_trigger_first_match_order_witness :
    detect_escalation_trigger "What is the price? I will sue you" =
      (true, some "pricing_inquiry") :=
  (detect_escalation_trigger_first_match_order "What is the price? I will sue you").1
    (by decide)

/-!
## Data model

Row types for the tables touched by the claims (`customers`,
`customer_identifiers`, `conversations`, `messages`, `tickets`), taken from the
column lists that the SQL in `src/backend/src` reads and writes.  Ids and
timestamps are `Nat`; nullable columns are `Option`.  A conversation's
channel-switch log lives in its `metadata` JSON in the source
(`DatabaseService.track_channel_switch`); it is modelled as a list of
(from-channel, to-channel, at) triples.
-/

structure Customer where
  id : Nat
  name : Option String := none
  primary_email : Option String := none
  primary_phone : Option String := none
  escalation_count : Nat := 0
deriving DecidableEq

structure CustomerIdentifier where
  id : Nat
  customer_id : Nat
  identifier_type : String
  identifier_value : String
  verified : Bool := false
deriving DecidableEq

structure Conversation where
  id : Nat
  customer_id : Nat
  initial_channel : String
  status : String
  started_at : Nat
  ended_at : Option Nat := none
  channel_switches : List (String × String × Nat) := []
deriving DecidableEq

structure MessageRow where
  id : Nat
  conversation_id : Nat
  channel : String
  channel_message_id : Option String := none
  direction : String
  role : String
  content : String
  created_at : Nat
  updated_at : Option Nat := none
deriving DecidableEq

structure Ticket where
  id : Nat
  conversation_id : Nat
  customer_id : Nat
  source_channel : String
  category : String
  priority : String
  status : String
  escalation_reason : Option String := none
  created_at : Nat
  updated_at : Option Nat := none
deriving DecidableEq

structure DB where
  customers : List Customer := []
  customer_identifiers : List CustomerIdentifier := []
  conversations : List Conversation := []
  messages : List MessageRow := []
  tickets : List Ticket := []
deriving DecidableEq

/-!
## Deduplication guard
-/

/-- The `SELECT id FROM messages WHERE channel = $1 AND channel_message_id = $2
LIMIT 1` existence check shared by `MessageProcessor._check_message_deduplication`
and `DatabaseService.check_message_duplicate`. -/
def messageKeyExists (db : DB) (channel channel_message_id : String) : Bool :=
  db.messages.any (fun m =>
    m.channel == channel && m.channel_message_id == some channel_message_id)

/-- `MessageProcessor._check_message_deduplication` of
`src/backend/src/workers/message_processor.py`: runs the existence query and
returns its result; if the lookup raises (modelled by `lookupFails`), the
`except` branch logs and returns `false` ("assume not duplicate"). -/
def check_message_deduplication (db : DB) (channel_message_id channel : String)
    (lookupFails : Bool) : Bool :=
  if lookupFails then false
  else messageKeyExists db channel channel_message_id

/-- C8: the deduplication guard answers `true` only when a stored message row
with the given (channel, channel_message_id) key exists — no false positives —
and a failing lookup is treated as non-duplicate (`false`), leaving the
storage-level uniqueness constraint as the backstop. -/
theorem check_message_deduplication_no_false_positive (db : DB)
    (channel_message_id channel : String) (lookupFails : Bool) :
    (check_message_deduplication db channel_message_id channel lookupFails = true →
      ∃ m ∈ db.messages,
        m.channel = channel ∧ m.channel_message_id = some channel_message_id) ∧
    (lookupFails = true →
      check_message_deduplication db channel_message_id channel lookupFails = false) := by
  constructor
  · intro h
    unfold check_message_deduplication messageKeyExists at h
    split at h
    · simp at h
    · obtain ⟨m, hm, hprop⟩ := List.any_eq_true.mp h
      simp only [Bool.and_eq_true, beq_iff_eq] at hprop
      exact ⟨m, hm, hprop.1, hprop.2⟩
  · intro h
    simp [check_message_deduplication, h]

/-- The one-row message store used by the C8 witness. -/
def dbC8 : DB :=
  { messages := [{ id := 1, conversation_id := 1, channel := "email",
                   channel_message_id := some "m1", direction := "inbound",
                   role := "customer", content := "hi", created_at := 0 }] }

/-- Witness for C8: on a store holding exactly one email message with external
id "m1", the guard flags ("email", "m1") as duplicate and names that row, and
with a failing lookup it answers `false`. -/
theorem check_message_deduplication_no_false_positive_witness :
    (∃ m ∈ dbC8.messages,
      m.channel = "email" ∧ m.channel_message_id = some "m1") ∧
    check_message_deduplication dbC8 "m1" "email" true = false :=
  ⟨(check_message_deduplication_no_false_positive dbC8 "m1" "email" false).1 (by decide),
   (check_message_deduplication_no_false_positive dbC8 "m1" "email" true).2 rfl⟩

/-!
## Ingestion worker: customer and conversation resolution
(`MessageProcessor` of `src/backend/src/workers/message_processor.py`)
-/

/-- The canonical inbound event consumed from the queue
(`fte.tickets.incoming`): the fields `_process_message` reads. -/
structure InboundMessage where
  channel : String
  channel_message_id : String
  customer_identifier : String
  content : String
deriving DecidableEq

/-- Worker-side state: the database, a fresh-id counter standing in for
`uuid4()`, and the log of agent invocations
(`self._agent.process_message(...)` calls), recording
(customer_id, conversation_id, content). -/
structure WorkerState where
  db : DB
  nextId : Nat
  agentInvocations : List (Nat × Nat × String) := []
deriving DecidableEq

/-- `MessageProcessor._get_or_create_customer`: look the identifier up in
`customer_identifiers` by (type, value); if absent, insert a customer row
(primary email or phone chosen by identifier type) and an identifier row. -/
def get_or_create_customer (st : WorkerState) (identifier identifier_type : String) :
    Nat × WorkerState :=
  match st.db.customer_identifiers.find? (fun ci =>
      ci.identifier_type == identifier_type && ci.identifier_value == identifier) with
  | some ci => (ci.customer_id, st)
  | none =>
    let cid := st.nextId
    let customer : Customer :=
      { id := cid,
        primary_email := if identifier_type == "email" then some identifier else none,
        primary_phone := if identifier_type == "phone" || identifier_type == "whatsapp" then
          some identifier else none }
    let ident : CustomerIdentifier :=
      { id := st.nextId + 1, customer_id := cid, identifier_type := identifier_type,
        identifier_value := identifier }
    (cid,
     { st with
       db := { st.db with
               customers := st.db.customers ++ [customer],
               customer_identifiers := st.db.customer_identifiers ++ [ident] },
       nextId := st.nextId + 2 })

/-- The rows selected by the worker's conversation lookup and by
`DatabaseService.find_active_conversation`: the customer's conversations with
`status = 'active'` and `started_at > NOW() - INTERVAL windowHours`, i.e.
`now < started_at + windowHours`. -/
def activeConversationsInWindow (db : DB) (customer_id now windowHours : Nat) :
    List Conversation :=
  db.conversations.filter (fun c =>
    c.customer_id == customer_id && c.status == "active" &&
      decide (now < c.started_at + windowHours))

/-- `ORDER BY started_at DESC LIMIT 1`: the first row carrying the maximal
`started_at`. -/
def pickMostRecentlyStarted : List Conversation → Option Conversation
  | [] => none
  | c :: cs =>
    match pickMostRecentlyStarted cs with
    | none => some c
    | some b => if b.started_at > c.started_at then some b else some c

/-- `MessageProcessor._get_or_create_conversation`: reuse the most recently
started active conversation of the last 24 hours if any, else insert a fresh
active conversation whose initiating channel is the current message's channel.
The source performs no message insert and no channel-switch tracking here. -/
def get_or_create_conversation (st : WorkerState) (customer_id : Nat) (channel : String)
    (now : Nat) : Nat × WorkerState :=
  match pickMostRecentlyStarted (activeConversationsInWindow st.db customer_id now 24) with
  | some c => (c.id, st)
  | none =>
    let conv : Conversation :=
      { id := st.nextId, customer_id := customer_id, initial_channel := channel,
        status := "active", started_at := now }
    (st.nextId,
     { st with
       db := { st.db with conversations := st.db.conversations ++ [conv] },
       nextId := st.nextId + 1 })

/-- `MessageProcessor._process_message`: deduplication check first (returning
immediately on a duplicate), then customer resolution, conversation resolution,
and the agent invocation.  Note that no step of this pipeline inserts a row
into `messages`. -/
def process_message (st : WorkerState) (msg : InboundMessage) (now : Nat) : WorkerState :=
  if check_message_deduplication st.db msg.channel_message_id msg.channel false then st
  else
    let identifier_type := if msg.channel == "email" then "email" else "phone"
    let resolved := get_or_create_customer st msg.customer_identifier identifier_type
    let opened := get_or_create_conversation resolved.2 resolved.1 msg.channel now
    { opened.2 with
      agentInvocations := opened.2.agentInvocations ++ [(resolved.1, opened.1, msg.content)] }

/-- Empty initial worker state for the C1 run. -/
def st0C1 : WorkerState := { db := {}, nextId := 1 }

/-- The redelivered inbound email event of the C1 run. -/
def eventC1 : InboundMessage :=
  { channel := "email", channel_message_id := "gmail-msg-1",
    customer_identifier := "new@customer.com", content := "hello" }

/-- C1: delivering the same (channel, channel_message_id) event twice is NOT
idempotent in the code: because no step of `_process_message` (or of the agent
tools it triggers) ever inserts a `messages` row carrying the deduplication
key, the second delivery is not detected as a duplicate — the dedup query still
finds nothing — and the whole side-effecting pipeline (customer resolution,
conversation resolution, agent invocation) runs again: two agent invocations
and zero stored message rows for the key, where the claim requires exactly one
invocation and one stored row. -/
theorem process_message_redelivery_not_detected :
    (process_message (process_message st0C1 eventC1 0) eventC1 0).agentInvocations.length
        = 2 ∧
    ((process_message (process_message st0C1 eventC1 0) eventC1 0).db.messages.filter
        (fun m => m.channel == "email" && m.channel_message_id == some "gmail-msg-1")).length
        = 0 ∧
    check_message_deduplication (process_message st0C1 eventC1 0).db "gmail-msg-1" "email"
        false = false := by
  decide

theorem pickMostRecentlyStarted_cons (a : Conversation) (t : List Conversation) :
    pickMostRecentlyStarted (a :: t) =
      match pickMostRecentlyStarted t with
      | none => some a
      | some b => if b.started_at > a.started_at then some b else some a := rfl

theorem pickMostRecentlyStarted_eq_none {l : List Conversation}
    (h : pickMostRecentlyStarted l = none) : l = [] := by
  cases l with
  | nil => rfl
  | cons a t =>
    rw [pickMostRecentlyStarted_cons] at h
    cases htl : pickMostRecentlyStarted t <;> rw [htl] at h <;> dsimp only at h
    · exact absurd h (by simp)
    · split at h <;> simp_all

theorem pickMostRecentlyStarted_mem {l : List Conversation} {c : Conversation}
    (h : pickMostRecentlyStarted l = some c) : c ∈ l := by
  induction l generalizing c with
  | nil => simp [pickMostRecentlyStarted] at h
  | cons a t ih =>
    rw [pickMostRecentlyStarted_cons] at h
    cases htl : pickMostRecentlyStarted t <;> rw [htl] at h <;> dsimp only at h
    · simp at h
      simp [h]
    · rename_i b
      split at h
      · simp at h
        right
        exact h ▸ ih htl
      · simp at h
        simp [h]

theorem pickMostRecentlyStarted_max {l : List Conversation} {c : Conversation}
    (h : pickMostRecentlyStarted l = some c) :
    ∀ c' ∈ l, c'.started_at ≤ c.started_at := by
  induction l generalizing c with
  | nil => simp [pickMostRecentlyStarted] at h
  | cons a t ih =>
    rw [pickMostRecentlyStarted_cons] at h
    cases htl : pickMostRecentlyStarted t <;> rw [htl] at h <;> dsimp only at h
    · simp at h
      rw [pickMostRecentlyStarted_eq_none htl]
      simp [h]
    · rename_i b
      split at h <;> rename_i hcmp <;> simp at h <;> subst h <;> intro c' hc' <;>
        rcases List.mem_cons.mp hc' with rfl | hmem
      · omega
      · exact ih htl c' hmem
      · exact Nat.le_refl _
      · have hb := ih htl c' hmem
        omega

theorem get_or_create_conversation_found (st : WorkerState) (cust : Nat) (ch : String)
    (now : Nat) {c : Conversation}
    (hp : pickMostRecentlyStarted (activeConversationsInWindow st.db cust now 24) = some c) :
    get_or_create_conversation st cust ch now = (c.id, st) := by
  unfold get_or_create_conversation
  rw [hp]

/-- Active email-initiated conversation used in the C5 counterexample. -/
def convC5 : Conversation :=
  { id := 10, customer_id := 1, initial_channel := "email", status := "active",
    started_at := 100 }

/-- Worker state for the C5 counterexample. -/
def stC5 : WorkerState := { db := { conversations := [convC5] }, nextId := 20 }

/-- C5 counterexample: a WhatsApp message arrives for customer 1, whose active
conversation was initiated on email one hour earlier.  The code returns the
found conversation and leaves the state completely unchanged: no channel-switch
record (from, to, now) is appended to the conversation (its switch log stays
empty) and no message row is appended, contradicting the claim's channel-switch
clause. -/
theorem get_or_create_conversation_no_channel_switch :
    (get_or_create_conversation stC5 1 "whatsapp" 101).1 = 10 ∧
    (get_or_create_conversation stC5 1 "whatsapp" 101).2 = stC5 ∧
    convC5.initial_channel = "email" ∧
    convC5.channel_switches = [] := by
  decide

/-- C5 (amended): if the customer has an active conversation whose `started_at`
lies within the 24-hour window, the most recently started one is returned and
the state is returned unchanged — in particular no channel-switch record is
appended even when the initiating channel differs; otherwise a fresh
conversation is inserted with status "active", initiating channel equal to the
current message's channel, and `started_at = now`. -/
theorem get_or_create_conversation_window_semantics (st : WorkerState) (cust : Nat)
    (ch : String) (now : Nat) :
    (∀ c, pickMostRecentlyStarted (activeConversationsInWindow st.db cust now 24) = some c →
      get_or_create_conversation st cust ch now = (c.id, st) ∧
      c ∈ st.db.conversations ∧ c.customer_id = cust ∧ c.status = "active" ∧
      now < c.started_at + 24 ∧
      ∀ c' ∈ activeConversationsInWindow st.db cust now 24,
        c'.started_at ≤ c.started_at) ∧
    (pickMostRecentlyStarted (activeConversationsInWindow st.db cust now 24) = none →
      get_or_create_conversation st cust ch now =
        (st.nextId,
         { st with
           db := { st.db with
                   conversations := st.db.conversations ++
                     [{ id := st.nextId, customer_id := cust, initial_channel := ch,
                        status := "active", started_at := now }] },
           nextId := st.nextId + 1 })) := by
  constructor
  · intro c hc
    have hmem := pickMostRecentlyStarted_mem hc
    have hfilter := List.mem_filter.mp hmem
    have hprops := hfilter.2
    simp only [Bool.and_eq_true, beq_iff_eq, decide_eq_true_eq] at hprops
    exact ⟨get_or_create_conversation_found st cust ch now hc, hfilter.1, hprops.1.1,
      hprops.1.2, hprops.2, pickMostRecentlyStarted_max hc⟩
  · intro hnone
    unfold get_or_create_conversation
    rw [hnone]

/-- Witness for C5 (amended): both branches evaluated concretely — the found
branch on `stC5` (conversation 10 is reused, state untouched) and the
not-found branch on the empty state (a fresh active conversation is
created). -/
theorem get_or_create_conversation_window_semantics_witness :
    get_or_create_conversation stC5 1 "whatsapp" 101 = (convC5.id, stC5) ∧
    get_or_create_conversation st0C1 1 "email" 0 =
      (st0C1.nextId,
       { st0C1 with
         db := { st0C1.db with
                 conversations := st0C1.db.conversations ++
                   [{ id := st0C1.nextId, customer_id := 1, initial_channel := "email",
                      status := "active", started_at := 0 }] },
         nextId := st0C1.nextId + 1 }) :=
  ⟨((get_or_create_conversation_window_semantics stC5 1 "whatsapp" 101).1 convC5
      (by decide)).1,
   (get_or_create_conversation_window_semantics st0C1 1 "email" 0).2 (by decide)⟩

/-!
## Web-form entry point (`src/backend/src/webhooks/webform.py`)
-/

/-- The validated web-form payload (`WebFormSubmission` pydantic model). -/
structure WebFormSubmission where
  name : String
  email : String
  subject : String
  message : String
  priority : String := "normal"
deriving DecidableEq

/-- `handle_webform_submission`'s database effects: resolve the customer by
`primary_email` (creating customer and verified email identifier if absent),
then UNCONDITIONALLY insert a new active webform conversation, an open ticket
(priority high when the form says high, else medium), and the inbound message
row.  Note the message insert sets no `channel_message_id`. -/
def handle_webform_submission (st : WorkerState) (form : WebFormSubmission) (now : Nat) :
    WorkerState :=
  let resolved :=
    match st.db.customers.find? (fun c => c.primary_email == some form.email) with
    | some c => (c.id, st)
    | none =>
      let cid := st.nextId
      let customer : Customer :=
        { id := cid, name := some form.name, primary_email := some form.email }
      let ident : CustomerIdentifier :=
        { id := st.nextId + 1, customer_id := cid, identifier_type := "email",
          identifier_value := form.email, verified := true }
      (cid,
       { st with
         db := { st.db with
                 customers := st.db.customers ++ [customer],
                 customer_identifiers := st.db.customer_identifiers ++ [ident] },
         nextId := st.nextId + 2 })
  let customer_id := resolved.1
  let st1 := resolved.2
  let conversation_id := st1.nextId
  let conv : Conversation :=
    { id := conversation_id, customer_id := customer_id, initial_channel := "webform",
      status := "active", started_at := now }
  let st2 : WorkerState :=
    { st1 with
      db := { st1.db with conversations := st1.db.conversations ++ [conv] },
      nextId := st1.nextId + 1 }
  let priority_level := if form.priority == "high" then "high" else "medium"
  let ticket : Ticket :=
    { id := st2.nextId, conversation_id := conversation_id, customer_id := customer_id,
      source_channel := "webform", category := "general", priority := priority_level,
      status := "open", created_at := now }
  let st3 : WorkerState :=
    { st2 with
      db := { st2.db with tickets := st2.db.tickets ++ [ticket] },
      nextId := st2.nextId + 1 }
  let msgRow : MessageRow :=
    { id := st3.nextId, conversation_id := conversation_id, channel := "webform",
      direction := "inbound", role := "customer", content := form.message,
      created_at := now }
  { st3 with
    db := { st3.db with messages := st3.db.messages ++ [msgRow] },
    nextId := st3.nextId + 1 }

/-- Customer of the C9 counterexample. -/
def custC9 : Customer := { id := 1, primary_email := some "amina@example.com" }

/-- The existing active conversation of the C9 counterexample. -/
def convC9 : Conversation :=
  { id := 2, customer_id := 1, initial_channel := "email", status := "active",
    started_at := 50 }

/-- State of the C9 counterexample: customer 1 already has an active
conversation inside the reuse window. -/
def stC9 : WorkerState :=
  { db := { customers := [custC9], conversations := [convC9] }, nextId := 30 }

/-- The form submission of the C9 counterexample. -/
def formC9 : WebFormSubmission :=
  { name := "Amina", email := "amina@example.com", subject := "Need help",
    message := "Please help me" }

/-- C9 counterexample: the web-form handler performs no active-conversation
lookup — it inserts a fresh active conversation unconditionally — so a
submission by a customer who already has an active conversation within the
24-hour window leaves that customer with TWO active conversations in the
window, violating the claimed invariant at this entry point. -/
theorem handle_webform_submission_breaks_single_active_invariant :
    (activeConversationsInWindow (handle_webform_submission stC9 formC9 51).db
        1 51 24).length = 2 := by
  decide

/-- C9 (amended): the ingestion-worker entry point preserves the at-most-one-
active-conversation-per-window invariant (when an active conversation exists in
the window it reuses it and inserts nothing), but the web-form handler does
not: it appends exactly one new conversation on every submission,
unconditionally. -/
theorem active_conversation_invariant_by_entry_point (st : WorkerState) (cust : Nat)
    (ch : String) (now : Nat) (form : WebFormSubmission) :
    (activeConversationsInWindow st.db cust now 24 ≠ [] →
      (get_or_create_conversation st cust ch now).2.db.conversations =
        st.db.conversations) ∧
    (handle_webform_submission st form now).db.conversations.length =
      st.db.conversations.length + 1 := by
  constructor
  · intro hne
    cases hp : pickMostRecentlyStarted (activeConversationsInWindow st.db cust now 24) with
    | none => exact absurd (pickMostRecentlyStarted_eq_none hp) hne
    | some c =>
      rw [get_or_create_conversation_found st cust ch now hp]
  · unfold handle_webform_submission
    cases hfind : st.db.customers.find? (fun c => c.primary_email == some form.email) <;>
      simp [hfind]

/-- Witness for C9 (amended): on the counterexample state the worker entry
point leaves the conversation table unchanged, while the form handler grows it
from one conversation to two. -/
theorem active_conversation_invariant_by_entry_point_witness :
    (get_or_create_conversation stC9 1 "whatsapp" 51).2.db.conversations =
      stC9.db.conversations ∧
    (handle_webform_submission stC9 formC9 51).db.conversations.length =
      stC9.db.conversations.length + 1 :=
  ⟨(active_conversation_invariant_by_entry_point stC9 1 "whatsapp" 51 formC9).1
      (by decide),
   (active_conversation_invariant_by_entry_point stC9 1 "whatsapp" 51 formC9).2⟩

/-!
## Ticket escalation tool (`escalate_ticket` of `src/backend/src/agent/tools.py`)
-/

/-- The Kafka payload published to `fte.escalations` (customer block and
conversation history abbreviated to the customer id and history length). -/
structure EscalationEvent where
  ticket_id : Nat
  escalation_reason : String
  priority : String
  customer_id : Nat
  history_length : Nat
  escalated_at : Nat
deriving DecidableEq

/-- The dictionary `escalate_ticket` returns: a success dict, the
"Ticket not found" error dict, or the generic failure dict produced by the
`except` branch — always a returned value, never an exception. -/
inductive EscalateResult where
  | escalated (ticket_id : Nat) (reason priority : String)
  | ticketNotFound
  | failed
deriving DecidableEq

/-- Database plus the `fte.escalations` topic. -/
structure ToolState where
  db : DB
  escalations : List EscalationEvent := []
deriving DecidableEq

/-- The row effect of `UPDATE tickets SET status = 'escalated',
escalation_reason = $1, priority = $2, updated_at = NOW() WHERE id = $3` —
note: no condition whatsoever on the current status. -/
def escalateRow (ticket_id : Nat) (reason priority : String) (now : Nat) (u : Ticket) :
    Ticket :=
  if u.id == ticket_id then
    { u with
      status := "escalated"
      escalation_reason := some reason
      priority := priority
      updated_at := some now }
  else u

/-- The row effect of `UPDATE customers SET escalation_count =
escalation_count + 1 WHERE id = $1` — again unconditional. -/
def incrementEscalationCount (customer_id : Nat) (c : Customer) : Customer :=
  if c.id == customer_id then { c with escalation_count := c.escalation_count + 1 } else c

/-- `escalate_ticket`: apply the unconditional ticket update (the `RETURNING`
row decides "Ticket not found"); then fetch the joined customer/conversation
context (if that fails the `except` branch returns a failure dict, with the
ticket update already applied); then publish the escalation event and increment
the owning customer's escalation counter. -/
def escalate_ticket (st : ToolState) (ticket_id : Nat) (reason priority : String)
    (now : Nat) : EscalateResult × ToolState :=
  match st.db.tickets.find? (fun t => t.id == ticket_id) with
  | none => (.ticketNotFound, st)
  | some t =>
    let dbUpdated := { st.db with
      tickets := st.db.tickets.map (escalateRow ticket_id reason priority now) }
    match st.db.customers.find? (fun c => c.id == t.customer_id),
          st.db.conversations.find? (fun c => c.id == t.conversation_id) with
    | some cust, some _conv =>
      let history := st.db.messages.filter (fun m => m.conversation_id == t.conversation_id)
      let event : EscalationEvent :=
        { ticket_id := ticket_id, escalation_reason := reason, priority := priority,
          customer_id := cust.id, history_length := history.length, escalated_at := now }
      (.escalated ticket_id reason priority,
       { db := { dbUpdated with
                 customers := dbUpdated.customers.map (incrementEscalationCount cust.id) },
         escalations := st.escalations ++ [event] })
    | _, _ => (.failed, { st with db := dbUpdated })

theorem escalate_ticket_tickets_updated (st : ToolState) (ticket_id : Nat)
    (reason priority : String) (now : Nat) {t : Ticket}
    (hfind : st.db.tickets.find? (fun u => u.id == ticket_id) = some t) :
    (escalate_ticket st ticket_id reason priority now).2.db.tickets =
      st.db.tickets.map (escalateRow ticket_id reason priority now) := by
  unfold escalate_ticket
  rw [hfind]
  dsimp only
  cases st.db.customers.find? (fun c => c.id == t.customer_id) <;>
    cases st.db.conversations.find? (fun c => c.id == t.conversation_id) <;> rfl

/-- The resolved ticket of the C3 counterexample. -/
def ticketC3 : Ticket :=
  { id := 7, conversation_id := 2, customer_id := 1, source_channel := "email",
    category := "general", priority := "medium", status := "resolved",
    escalation_reason := none, created_at := 10 }

/-- Tool state of the C3 counterexample. -/
def stC3 : ToolState :=
  { db := { customers := [{ id := 1 }],
            conversations := [{ id := 2, customer_id := 1, initial_channel := "email",
                                status := "active", started_at := 0 }],
            tickets := [ticketC3] } }

/-- C3 counterexample: escalating ticket 7, whose status is "resolved", is NOT
rejected: `escalate_ticket` carries no transition guard, so the call returns
the success dict and rewrites the ticket to status "escalated" with the new
escalation reason and priority — the status, reason and priority all change,
where the claim requires an invalid-transition error and an unchanged
ticket. -/
theorem escalate_ticket_resolved_not_rejected :
    ticketC3.status = "resolved" ∧
    (escalate_ticket stC3 7 "refund_request" "high" 20).1 =
      .escalated 7 "refund_request" "high" ∧
    (escalate_ticket stC3 7 "refund_request" "high" 20).2.db.tickets.map Ticket.status =
      ["escalated"] ∧
    (escalate_ticket stC3 7 "refund_request" "high" 20).2.db.tickets.map
      Ticket.escalation_reason = [some "refund_request"] := by
  decide

/-- C3 (amended): the escalate operation applies unconditionally — for any
found ticket, whatever its current status (including "resolved"), the row is
rewritten to status "escalated" with the given reason and priority, and the
outcome is a returned result value (the operation is a total function, so it
never crashes the worker); the only true part of the claim is that this
component never moves any ticket (back) to "open". -/
theorem escalate_ticket_no_transition_guard (st : ToolState) (tid : Nat)
    (reason priority : String) (now : Nat) (t : Ticket)
    (hfind : st.db.tickets.find? (fun u => u.id == tid) = some t) :
    (∀ u ∈ (escalate_ticket st tid reason priority now).2.db.tickets,
      u.id = tid → u.status = "escalated" ∧ u.escalation_reason = some reason ∧
        u.priority = priority) ∧
    (∀ u ∈ (escalate_ticket st tid reason priority now).2.db.tickets,
      u.status = "open" → u ∈ st.db.tickets) := by
  rw [escalate_ticket_tickets_updated st tid reason priority now hfind]
  constructor
  · intro u hu hid
    obtain ⟨u0, hu0, rfl⟩ := List.mem_map.mp hu
    unfold escalateRow
    unfold escalateRow at hid
    split
    · exact ⟨rfl, rfl, rfl⟩
    · rename_i hne
      split at hid
      · simp_all
      · rw [hid] at hne
        simp at hne
  · intro u hu hopen
    obtain ⟨u0, hu0, rfl⟩ := List.mem_map.mp hu
    unfold escalateRow at hopen ⊢
    split at hopen <;> rename_i hcond
    · simp at hopen
    · rw [if_neg hcond]
      exact hu0

/-- Witness for C3 (amended): on the concrete resolved ticket 7 the updated
row is escalated with the new reason and priority. -/
theorem escalate_ticket_no_transition_guard_witness :
    (escalateRow 7 "refund_request" "high" 20 ticketC3).status = "escalated" ∧
    (escalateRow 7 "refund_request" "high" 20 ticketC3).escalation_reason =
      some "refund_request" ∧
    (escalateRow 7 "refund_request" "high" 20 ticketC3).priority = "high" :=
  (escalate_ticket_no_transition_guard stC3 7 "refund_request" "high" 20 ticketC3
      (by decide)).1
    (escalateRow 7 "refund_request" "high" 20 ticketC3) (by decide) (by decide)

/-- The already-escalated ticket of the C4 counterexample. -/
def ticketC4 : Ticket :=
  { id := 8, conversation_id := 4, customer_id := 3, source_channel := "whatsapp",
    category := "general", priority := "high", status := "escalated",
    escalation_reason := some "legal_matter", created_at := 10 }

/-- Tool state for the C4 counterexample: the owner already has
escalation_count 1 from the first escalation. -/
def stC4 : ToolState :=
  { db := { customers := [{ id := 3, escalation_count := 1 }],
            conversations := [{ id := 4, customer_id := 3, initial_channel := "whatsapp",
                                status := "active", started_at := 0 }],
            tickets := [ticketC4] } }

/-- C4 counterexample: escalating ticket 8, which is already "escalated",
does republish the escalation event, but it ALSO increments the owning
customer's escalation counter from 1 to 2 — there is no status check guarding
the `escalation_count + 1` update, so the counter is double-incremented,
contradicting the claim's guard clause. -/
theorem escalate_ticket_already_escalated_double_increments :
    ticketC4.status = "escalated" ∧
    (escalate_ticket stC4 8 "legal_matter" "high" 30).2.escalations.length = 1 ∧
    (escalate_ticket stC4 8 "legal_matter" "high" 30).2.db.customers.map
      Customer.escalation_count = [2] := by
  decide

/-- C4 (amended): escalating an already-escalated ticket republishes the
escalation event to the handoff topic (at-least-once delivery holds), but the
customer's escalation counter is incremented again — the increment is applied
unconditionally, with no check of the ticket's current status. -/
theorem escalate_ticket_republish_and_unguarded_increment (st : ToolState) (tid : Nat)
    (reason priority : String) (now : Nat) (t : Ticket) (cust : Customer)
    (conv : Conversation)
    (hfind : st.db.tickets.find? (fun u => u.id == tid) = some t)
    (_hstatus : t.status = "escalated")
    (hcust : st.db.customers.find? (fun c => c.id == t.customer_id) = some cust)
    (hconv : st.db.conversations.find? (fun c => c.id == t.conversation_id) = some conv) :
    (escalate_ticket st tid reason priority now).2.escalations =
      st.escalations ++
        [{ ticket_id := tid, escalation_reason := reason, priority := priority,
           customer_id := cust.id,
           history_length := (st.db.messages.filter
             (fun m => m.conversation_id == t.conversation_id)).length,
           escalated_at := now }] ∧
    (escalate_ticket st tid reason priority now).2.db.customers =
      st.db.customers.map (incrementEscalationCount cust.id) := by
  unfold escalate_ticket
  rw [hfind]
  dsimp only
  rw [hcust, hconv]
  exact ⟨rfl, rfl⟩

/-- Witness for C4 (amended): evaluated on the concrete already-escalated
ticket 8 — the event list grows by the republished event and customer 3's
counter is incremented. -/
theorem escalate_ticket_republish_and_unguarded_increment_witness :
    (escalate_ticket stC4 8 "legal_matter" "high" 30).2.escalations =
      stC4.escalations ++
        [{ ticket_id := 8, escalation_reason := "legal_matter", priority := "high",
           customer_id := 3,
           history_length := (stC4.db.messages.filter
             (fun m => m.conversation_id == ticketC4.conversation_id)).length,
           escalated_at := 30 }] ∧
    (escalate_ticket stC4 8 "legal_matter" "high" 30).2.db.customers =
      stC4.db.customers.map (incrementEscalationCount 3) :=
  escalate_ticket_republish_and_unguarded_increment stC4 8 "legal_matter" "high" 30
    ticketC4 { id := 3, escalation_count := 1 }
    { id := 4, customer_id := 3, initial_channel := "whatsapp", status := "active",
      started_at := 0 }
    (by decide) (by decide) (by decide) (by decide)

/-!
## Conversation merge (`DatabaseService.merge_conversations` of
`src/backend/src/services/database.py`)
-/

/-- Row effect of `UPDATE messages SET conversation_id = $1, updated_at = NOW()
WHERE conversation_id = $2`. -/
def repointMessage (primary secondary now : Nat) (m : MessageRow) : MessageRow :=
  if m.conversation_id == secondary then
    { m with
      conversation_id := primary
      updated_at := some now }
  else m

/-- Row effect of `UPDATE tickets SET conversation_id = $1, updated_at = NOW()
WHERE conversation_id = $2`. -/
def repointTicket (primary secondary now : Nat) (t : Ticket) : Ticket :=
  if t.conversation_id == secondary then
    { t with
      conversation_id := primary
      updated_at := some now }
  else t

/-- Row effect of `UPDATE conversations SET status = 'closed',
ended_at = NOW() WHERE id = $1` — applied unconditionally, with no check that
the conversation is still active. -/
def closeConversation (secondary now : Nat) (c : Conversation) : Conversation :=
  if c.id == secondary then
    { c with
      status := "closed"
      ended_at := some now }
  else c

/-- `DatabaseService.merge_conversations`: repoint the secondary conversation's
messages and tickets to the primary, then close the secondary. -/
def merge_conversations (db : DB) (primary secondary now : Nat) : DB :=
  { db with
    messages := db.messages.map (repointMessage primary secondary now)
    tickets := db.tickets.map (repointTicket primary secondary now)
    conversations := db.conversations.map (closeConversation secondary now) }

theorem repointMessage_repointMessage {p s : Nat} (hps : p ≠ s) (t1 t2 : Nat)
    (m : MessageRow) :
    repointMessage p s t2 (repointMessage p s t1 m) = repointMessage p s t1 m := by
  unfold repointMessage
  by_cases h : (m.conversation_id == s) = true
  · rw [if_pos h]
    have hp : (p == s) = false := by
      simp only [beq_eq_false_iff_ne, ne_eq]
      exact hps
    simp [hp]
  · rw [if_neg h, if_neg h]

theorem repointTicket_repointTicket {p s : Nat} (hps : p ≠ s) (t1 t2 : Nat)
    (t : Ticket) :
    repointTicket p s t2 (repointTicket p s t1 t) = repointTicket p s t1 t := by
  unfold repointTicket
  by_cases h : (t.conversation_id == s) = true
  · rw [if_pos h]
    have hp : (p == s) = false := by
      simp only [beq_eq_false_iff_ne, ne_eq]
      exact hps
    simp [hp]
  · rw [if_neg h, if_neg h]

theorem closeConversation_closeConversation (s t1 t2 : Nat) (c : Conversation) :
    closeConversation s t2 (closeConversation s t1 c) = closeConversation s t2 c := by
  unfold closeConversation
  by_cases h : (c.id == s) = true
  · rw [if_pos h]
    simp [h]
  · rw [if_neg h, if_neg h]

theorem map_fix_of_pointwise {α : Type} {f : α → α} :
    ∀ (l : List α), (∀ a ∈ l, f a = a) → l.map f = l
  | [], _ => rfl
  | a :: t, h => by
    simp only [List.map_cons, h a (List.mem_cons_self a t),
      map_fix_of_pointwise t (fun b hb => h b (List.mem_cons_of_mem a hb))]

theorem map_created_at_repoint (p s t1 : Nat) :
    ∀ l : List MessageRow,
      (l.map (repointMessage p s t1)).map MessageRow.created_at =
        l.map MessageRow.created_at
  | [] => rfl
  | m :: rest => by
    simp only [List.map_cons, map_created_at_repoint p s t1 rest, List.cons.injEq,
      and_true]
    unfold repointMessage
    split <;> rfl

theorem map_id_repoint (p s t1 : Nat) :
    ∀ l : List MessageRow,
      (l.map (repointMessage p s t1)).map MessageRow.id = l.map MessageRow.id
  | [] => rfl
  | m :: rest => by
    simp only [List.map_cons, map_id_repoint p s t1 rest, List.cons.injEq, and_true]
    unfold repointMessage
    split <;> rfl

theorem map_repointMessage_twice {p s : Nat} (hps : p ≠ s) (t1 t2 : Nat) :
    ∀ l : List MessageRow,
      (l.map (repointMessage p s t1)).map (repointMessage p s t2) =
        l.map (repointMessage p s t1)
  | [] => rfl
  | m :: rest => by
    simp only [List.map_cons, map_repointMessage_twice hps t1 t2 rest,
      repointMessage_repointMessage hps t1 t2 m]

theorem map_repointTicket_twice {p s : Nat} (hps : p ≠ s) (t1 t2 : Nat) :
    ∀ l : List Ticket,
      (l.map (repointTicket p s t1)).map (repointTicket p s t2) =
        l.map (repointTicket p s t1)
  | [] => rfl
  | t :: rest => by
    simp only [List.map_cons, map_repointTicket_twice hps t1 t2 rest,
      repointTicket_repointTicket hps t1 t2 t]

theorem map_closeConversation_twice (s t1 t2 : Nat) :
    ∀ l : List Conversation,
      (l.map (closeConversation s t1)).map (closeConversation s t2) =
        l.map (closeConversation s t2)
  | [] => rfl
  | c :: rest => by
    simp only [List.map_cons, map_closeConversation_twice s t1 t2 rest,
      closeConversation_closeConversation s t1 t2 c]

/-- The two racing conversations and the one secondary-side message of the C6
counterexample. -/
def dbC6 : DB :=
  { conversations := [{ id := 1, customer_id := 5, initial_channel := "email",
                        status := "active", started_at := 0 },
                      { id := 2, customer_id := 5, initial_channel := "whatsapp",
                        status := "active", started_at := 1 }],
    messages := [{ id := 100, conversation_id := 2, channel := "whatsapp",
                   direction := "inbound", role := "customer", content := "hi",
                   created_at := 1 }] }

/-- C6 counterexample: running merge(1, 2) a second time is not a no-op and
does not leave the stored state identical to running it once — the close
statement is unconditional, so the second run overwrites the already-closed
secondary conversation's `ended_at` with the later clock reading (10 becomes
11). -/
theorem merge_conversations_twice_differs :
    merge_conversations (merge_conversations dbC6 1 2 10) 1 2 11 ≠
      merge_conversations dbC6 1 2 10 ∧
    (merge_conversations (merge_conversations dbC6 1 2 10) 1 2 11).conversations.map
      Conversation.ended_at = [none, some 11] ∧
    (merge_conversations dbC6 1 2 10).conversations.map Conversation.ended_at =
      [none, some 10] := by
  decide

/-- C6 (amended): re-running merge on the same (primary, secondary) pair with
distinct ids repoints nothing further — messages, tickets, customers and
identifiers are exactly those of the single run — and the secondary stays
closed; the only difference is that the unconditional close statement
re-stamps the secondary's `ended_at` with the second run's clock.  Message
rows keep their original `created_at` (and their stored order), so ordering
by original timestamp is preserved. -/
theorem merge_conversations_rerun_effect (db : DB) (p s t1 t2 : Nat) (hps : p ≠ s) :
    (merge_conversations (merge_conversations db p s t1) p s t2).messages =
      (merge_conversations db p s t1).messages ∧
    (merge_conversations (merge_conversations db p s t1) p s t2).tickets =
      (merge_conversations db p s t1).tickets ∧
    (merge_conversations (merge_conversations db p s t1) p s t2).customers =
      db.customers ∧
    (merge_conversations (merge_conversations db p s t1) p s t2).customer_identifiers =
      db.customer_identifiers ∧
    (merge_conversations (merge_conversations db p s t1) p s t2).conversations =
      db.conversations.map (closeConversation s t2) ∧
    (merge_conversations db p s t1).messages.map MessageRow.created_at =
      db.messages.map MessageRow.created_at ∧
    (merge_conversations db p s t1).messages.map MessageRow.id =
      db.messages.map MessageRow.id := by
  refine ⟨?_, ?_, rfl, rfl, ?_, ?_, ?_⟩
  · exact map_repointMessage_twice hps t1 t2 db.messages
  · exact map_repointTicket_twice hps t1 t2 db.tickets
  · exact map_closeConversation_twice s t1 t2 db.conversations
  · exact map_created_at_repoint p s t1 db.messages
  · exact map_id_repoint p s t1 db.messages

/-- Witness for C6 (amended): evaluated on the concrete two-conversation
store. -/
theorem merge_conversations_rerun_effect_witness :
    (merge_conversations (merge_conversations dbC6 1 2 10) 1 2 11).messages =
      (merge_conversations dbC6 1 2 10).messages ∧
    (merge_conversations (merge_conversations dbC6 1 2 10) 1 2 11).tickets =
      (merge_conversations dbC6 1 2 10).tickets ∧
    (merge_conversations (merge_conversations dbC6 1 2 10) 1 2 11).customers =
      dbC6.customers ∧
    (merge_conversations (merge_conversations dbC6 1 2 10) 1 2 11).customer_identifiers =
      dbC6.customer_identifiers ∧
    (merge_conversations (merge_conversations dbC6 1 2 10) 1 2 11).conversations =
      dbC6.conversations.map (closeConversation 2 11) ∧
    (merge_conversations dbC6 1 2 10).messages.map MessageRow.created_at =
      dbC6.messages.map MessageRow.created_at ∧
    (merge_conversations dbC6 1 2 10).messages.map MessageRow.id =
      dbC6.messages.map MessageRow.id :=
  merge_conversations_rerun_effect dbC6 1 2 10 11 (by decide)

/-!
## Retry with exponential backoff and dead-lettering
(`MessageProcessor._retry_with_exponential_backoff`, `_publish_to_dlq` and the
consume loop of `MessageProcessor.start`)
-/

/-- What one run of the retry helper did: its returned/raised outcome (`none`
models the Python loop falling through when `max_retries = 0`), the sequence of
delays slept, and how many times the handler was invoked. -/
structure RetryOutcome (α : Type) where
  result : Option (Except String α)
  delays : List Nat
  attempts : Nat

/-- The `for attempt in range(max_retries)` loop: call the handler; on success
return; on failure re-raise if this was attempt `max_retries - 1`, else sleep
`backoff_factor ** attempt` and continue.  `remaining` counts the loop
iterations left, so the top-level call passes `attempt = 0` and
`remaining = max_retries`. -/
def retryAttempts {α : Type} (handler : Nat → Except String α) (backoff_factor : Nat) :
    (attempt remaining : Nat) → RetryOutcome α
  | _, 0 => { result := none, delays := [], attempts := 0 }
  | attempt, r + 1 =>
    match handler attempt with
    | .ok a => { result := some (.ok a), delays := [], attempts := 1 }
    | .error e =>
      if r = 0 then { result := some (.error e), delays := [], attempts := 1 }
      else
        let rest := retryAttempts handler backoff_factor (attempt + 1) r
        { result := rest.result
          delays := backoff_factor ^ attempt :: rest.delays
          attempts := rest.attempts + 1 }

/-- `MessageProcessor._retry_with_exponential_backoff` (defaults:
`MESSAGE_RETRY_MAX_ATTEMPTS = 5`, `MESSAGE_RETRY_BACKOFF_FACTOR = 2` from
`src/backend/src/config.py`). -/
def retry_with_exponential_backoff {α : Type} (handler : Nat → Except String α)
    (max_retries backoff_factor : Nat) : RetryOutcome α :=
  retryAttempts handler backoff_factor 0 max_retries

/-- The dead-letter payload built by `_publish_to_dlq`:
original_message, error, failed_at, source. -/
structure DlqPayload where
  original_message : InboundMessage
  error : String
  failed_at : Nat
  source : String
deriving DecidableEq

/-- Per-message outcome of the consume loop in `MessageProcessor.start`. -/
structure ConsumeOutcome where
  dlq : List DlqPayload
  committed : Bool
  delays : List Nat
  attempts : Nat

/-- The per-message body of `MessageProcessor.start`: run the handler through
the retry helper; on success commit; if the retries were exhausted, publish one
dead-letter payload and still commit, so the offset always advances. -/
def handle_polled_message (handler : Nat → Except String Unit)
    (max_retries backoff_factor : Nat) (msg : InboundMessage) (now : Nat) :
    ConsumeOutcome :=
  match (retry_with_exponential_backoff handler max_retries backoff_factor).result with
  | some (.error e) =>
    { dlq := [{ original_message := msg, error := e, failed_at := now,
                source := "message_processor" }]
      committed := true
      delays := (retry_with_exponential_backoff handler max_retries backoff_factor).delays
      attempts := (retry_with_exponential_backoff handler max_retries backoff_factor).attempts }
  | _ =>
    { dlq := []
      committed := true
      delays := (retry_with_exponential_backoff handler max_retries backoff_factor).delays
      attempts := (retry_with_exponential_backoff handler max_retries backoff_factor).attempts }

theorem retryAttempts_all_fail {α : Type} (handler : Nat → Except String α) (b : Nat)
    (hfail : ∀ n, ∃ e, handler n = .error e) :
    ∀ r attempt, 1 ≤ r →
      (retryAttempts handler b attempt r).attempts = r ∧
      (retryAttempts handler b attempt r).delays =
        (List.range (r - 1)).map (fun i => b ^ (attempt + i)) ∧
      ∃ e, (retryAttempts handler b attempt r).result = some (.error e) := by
  intro r
  induction r with
  | zero => intro attempt h; omega
  | succ r ih =>
    intro attempt _
    obtain ⟨e, he⟩ := hfail attempt
    unfold retryAttempts
    rw [he]
    dsimp only
    by_cases hr : r = 0
    · subst hr
      simp
    · rw [if_neg hr]
      obtain ⟨ha, hd, hres⟩ := ih (attempt + 1) (by omega)
      refine ⟨by simp [ha], ?_, by simpa using hres⟩
      dsimp only
      rw [hd]
      have hr1 : r + 1 - 1 = (r - 1) + 1 := by omega
      rw [hr1, List.range_succ_eq_map, List.map_cons, List.map_map]
      have hfun : ((fun i => b ^ (attempt + i)) ∘ Nat.succ) =
          fun i => b ^ (attempt + 1 + i) := by
        funext i
        simp only [Function.comp_apply]
        exact congrArg (b ^ ·) (by omega)
      rw [hfun]
      simp

/-- A handler that fails on every attempt, as in the C7 run. -/
def failingHandlerC7 : Nat → Except String Unit :=
  fun _ => .error "storage unavailable"

/-- C7 counterexample: at the default configuration (5 attempts, backoff
factor 2) the delay schedule of an always-failing handler is exactly the
deterministic pure-exponential sequence [1, 2, 4, 8] — `backoff_factor **
attempt` with no jitter term anywhere, identical on every run and on every
worker — so the claim's "delays including jitter" is false (the rest of the
run matches the claim: one dead-letter payload carrying the original message
and the offset still committed). -/
theorem retry_delays_have_no_jitter :
    (handle_polled_message failingHandlerC7 5 2 eventC1 99).delays = [1, 2, 4, 8] ∧
    (handle_polled_message failingHandlerC7 5 2 eventC1 99).dlq =
      [{ original_message := eventC1, error := "storage unavailable", failed_at := 99,
         source := "message_processor" }] ∧
    (handle_polled_message failingHandlerC7 5 2 eventC1 99).committed = true := by
  decide

/-- C7 (amended): a handler failing on every attempt is invoked exactly
`max_retries` times (default 5) with the deterministic, strictly increasing
delay schedule `backoff_factor ^ attempt` (no jitter); after exhaustion exactly
one dead-letter payload {original_message, error, failed_at, source} is
published and the offset is still committed. -/
theorem retry_exhaustion_dead_letters_once_and_commits
    (handler : Nat → Except String Unit) (max_retries b : Nat) (msg : InboundMessage)
    (now : Nat) (hfail : ∀ n, ∃ e, handler n = .error e) (hmax : 1 ≤ max_retries)
    (hb : 1 < b) :
    (handle_polled_message handler max_retries b msg now).attempts = max_retries ∧
    (handle_polled_message handler max_retries b msg now).delays =
      (List.range (max_retries - 1)).map (fun i => b ^ i) ∧
    (handle_polled_message handler max_retries b msg now).delays.Pairwise (· < ·) ∧
    (handle_polled_message handler max_retries b msg now).dlq.length = 1 ∧
    (∀ d ∈ (handle_polled_message handler max_retries b msg now).dlq,
      d.original_message = msg ∧ d.failed_at = now ∧ d.source = "message_processor") ∧
    (handle_polled_message handler max_retries b msg now).committed = true := by
  obtain ⟨ha, hd, e, hres⟩ := retryAttempts_all_fail handler b hfail max_retries 0 hmax
  have h0 : (fun i => b ^ (0 + i)) = fun i : Nat => b ^ i := by
    funext i
    rw [Nat.zero_add]
  unfold handle_polled_message retry_with_exponential_backoff
  rw [hres]
  dsimp only
  refine ⟨ha, ?_, ?_, rfl, ?_, rfl⟩
  · rw [hd, h0]
  · rw [hd, h0, List.pairwise_map]
    exact (List.pairwise_lt_range _).imp (fun hab => Nat.pow_lt_pow_right hb hab)
  · intro d hd'
    simp only [List.mem_singleton] at hd'
    subst hd'
    exact ⟨rfl, rfl, rfl⟩

/-- Witness for C7 (amended): evaluated at the default configuration on the
always-failing handler. -/
theorem retry_exhaustion_dead_letters_once_and_commits_witness :
    (handle_polled_message failingHandlerC7 5 2 eventC1 99).attempts = 5 ∧
    (handle_polled_message failingHandlerC7 5 2 eventC1 99).delays =
      (List.range 4).map (fun i => 2 ^ i) ∧
    (handle_polled_message failingHandlerC7 5 2 eventC1 99).dlq.length = 1 ∧
    (handle_polled_message failingHandlerC7 5 2 eventC1 99).committed = true :=
  ⟨(retry_exhaustion_dead_letters_once_and_commits failingHandlerC7 5 2 eventC1 99
      (fun _ => ⟨"storage unavailable", rfl⟩) (by decide) (by decide)).1,
   (retry_exhaustion_dead_letters_once_and_commits failingHandlerC7 5 2 eventC1 99
      (fun _ => ⟨"storage unavailable", rfl⟩) (by decide) (by decide)).2.1,
   (retry_exhaustion_dead_letters_once_and_commits failingHandlerC7 5 2 eventC1 99
      (fun _ => ⟨"storage unavailable", rfl⟩) (by decide) (by decide)).2.2.2.1,
   (retry_exhaustion_dead_letters_once_and_commits failingHandlerC7 5 2 eventC1 99
      (fun _ => ⟨"storage unavailable", rfl⟩) (by decide) (by decide)).2.2.2.2.2⟩

/-!
## Input sanitization (`src/backend/src/utils/sanitization.py`)

The regex substitutions of `remove_script_tags` and `sanitize_sql_input` are
embedded as explicit left-to-right scanners (Python's `re.sub` replaces
non-overlapping matches left to right); each scanner carries a fuel argument
bounded by the input length, which dominates the number of scan steps.
-/

/-- Python whitespace class `\s` over ASCII (space, tab, newline, carriage
return, vertical tab, form feed); also what `str.strip()` removes. -/
def pyIsSpace (c : Char) : Bool :=
  c == ' ' || c == '\t' || c == '\n' || c == '\r' ||
    c == Char.ofNat 11 || c == Char.ofNat 12

/-- `str.strip()` on a character list. -/
def pyStripList (l : List Char) : List Char :=
  ((l.dropWhile pyIsSpace).reverse.dropWhile pyIsSpace).reverse

/-- `str.strip()`. -/
def pyStrip (s : String) : String :=
  String.mk (pyStripList s.toList)

/-- `html.escape(text, quote=True)` character expansion. -/
def htmlEscapeChar (c : Char) : List Char :=
  if c == '&' then ['&', 'a', 'm', 'p', ';']
  else if c == '<' then ['&', 'l', 't', ';']
  else if c == '>' then ['&', 'g', 't', ';']
  else if c == '"' then ['&', 'q', 'u', 'o', 't', ';']
  else if c == '\'' then ['&', '#', 'x', '2', '7', ';']
  else [c]

/-- `sanitize_html`: empty input is returned as is, otherwise every HTML
special character is escaped. -/
def sanitize_html (s : String) : String :=
  if s.isEmpty then s else String.mk (s.toList.flatMap htmlEscapeChar)

/-- Case-insensitive prefix test against a lower-case pattern (the
`re.IGNORECASE` literals). -/
def isPrefixCI : List Char → List Char → Bool
  | [], _ => true
  | _ :: _, [] => false
  | p :: ps, c :: cs => p == c.toLower && isPrefixCI ps cs

/-- Consume through the first `>` (the `[^>]*>` part of the script-tag
pattern); `none` when there is no `>`. -/
def dropThroughGt : List Char → Option (List Char)
  | [] => none
  | c :: cs => if c == '>' then some cs else dropThroughGt cs

/-- Consume through the earliest case-insensitive occurrence of `pat` (the
non-greedy `.*?pat`); `none` when `pat` does not occur. -/
def dropThroughCI (pat : List Char) : List Char → Option (List Char)
  | [] => none
  | c :: cs =>
    if isPrefixCI pat (c :: cs) then some ((c :: cs).drop pat.length)
    else dropThroughCI pat cs

/-- Match `<script[^>]*>.*?</script>` (IGNORECASE, DOTALL) anchored at the
head, returning the remainder after the match. -/
def matchScriptAt (l : List Char) : Option (List Char) :=
  if isPrefixCI ['<', 's', 'c', 'r', 'i', 'p', 't'] l then
    match dropThroughGt (l.drop 7) with
    | none => none
    | some rest => dropThroughCI ['<', '/', 's', 'c', 'r', 'i', 'p', 't', '>'] rest
  else none

/-- `re.sub` scan deleting every script element. -/
def removeScriptTagsAux : Nat → List Char → List Char
  | 0, l => l
  | _ + 1, [] => []
  | fuel + 1, c :: cs =>
    match matchScriptAt (c :: cs) with
    | some rest => removeScriptTagsAux fuel rest
    | none => c :: removeScriptTagsAux fuel cs

/-- `\w` over ASCII: letters, digits, underscore. -/
def isWordChar (c : Char) : Bool :=
  c.isAlphanum || c == '_'

/-- Match the inline-event-handler pattern
`\son\w+\s*=\s*["']?[^"']*["']?` (IGNORECASE) anchored at the head, returning
the remainder after the match. -/
def matchEventHandlerAt (l : List Char) : Option (List Char) :=
  match l with
  | c :: o :: n :: rest =>
    if pyIsSpace c && o.toLower == 'o' && n.toLower == 'n' then
      match rest with
      | r1 :: _ =>
        if isWordChar r1 then
          let afterWord := rest.dropWhile isWordChar
          let afterWs := afterWord.dropWhile pyIsSpace
          match afterWs with
          | e :: tail =>
            if e == '=' then
              let tail2 := tail.dropWhile pyIsSpace
              let tail3 :=
                match tail2 with
                | q :: ts => if q == '"' || q == '\'' then ts else tail2
                | [] => tail2
              let tail4 := tail3.dropWhile (fun ch => !(ch == '"' || ch == '\''))
              let tail5 :=
                match tail4 with
                | q :: ts => if q == '"' || q == '\'' then ts else tail4
                | [] => tail4
              some tail5
            else none
          | [] => none
        else none
      | [] => none
    else none
  | _ => none

/-- `re.sub` scan deleting inline event handlers. -/
def removeEventHandlersAux : Nat → List Char → List Char
  | 0, l => l
  | _ + 1, [] => []
  | fuel + 1, c :: cs =>
    match matchEventHandlerAt (c :: cs) with
    | some rest => removeEventHandlersAux fuel rest
    | none => c :: removeEventHandlersAux fuel cs

/-- `re.sub` scan deleting every case-insensitive occurrence of a literal
(used for `javascript:`). -/
def removeTokenCIAux (pat : List Char) : Nat → List Char → List Char
  | 0, l => l
  | _ + 1, [] => []
  | fuel + 1, c :: cs =>
    if isPrefixCI pat (c :: cs) then
      removeTokenCIAux pat fuel ((c :: cs).drop pat.length)
    else c :: removeTokenCIAux pat fuel cs

/-- `remove_script_tags`: script elements, then inline event handlers, then
the `javascript:` protocol. -/
def remove_script_tags (s : String) : String :=
  if s.isEmpty then s
  else
    let l1 := removeScriptTagsAux s.toList.length s.toList
    let l2 := removeEventHandlersAux l1.length l1
    let l3 := removeTokenCIAux
      ['j', 'a', 'v', 'a', 's', 'c', 'r', 'i', 'p', 't', ':'] l2.length l2
    String.mk l3

/-- Truncate a line at its first `--` (the MULTILINE `--.*$` substitution acts
per line). -/
def stripDashDash : List Char → List Char
  | [] => []
  | c :: cs =>
    if c == '-' && cs.head? == some '-' then []
    else c :: stripDashDash cs

/-- Split on newlines (preserving empty segments). -/
def splitOnNl : List Char → List (List Char)
  | [] => [[]]
  | c :: cs =>
    match splitOnNl cs with
    | [] => if c == '\n' then [[], []] else [[c]]
    | h :: t => if c == '\n' then [] :: h :: t else (c :: h) :: t

/-- Rejoin lines with newlines. -/
def joinNl : List (List Char) → List Char
  | [] => []
  | [x] => x
  | x :: xs => x ++ '\n' :: joinNl xs

/-- Consume through the earliest literal occurrence of `pat` (the non-greedy
`.*?pat` of the block-comment pattern). -/
def dropThroughLit (pat : List Char) : List Char → Option (List Char)
  | [] => none
  | c :: cs =>
    if pat.isPrefixOf (c :: cs) then some ((c :: cs).drop pat.length)
    else dropThroughLit pat cs

/-- `re.sub` scan deleting `/* ... */` block comments (DOTALL, non-greedy). -/
def removeBlockCommentsAux : Nat → List Char → List Char
  | 0, l => l
  | _ + 1, [] => []
  | fuel + 1, c :: cs =>
    if ['/', '*'].isPrefixOf (c :: cs) then
      match dropThroughLit ['*', '/'] (cs.drop 1) with
      | some rest => removeBlockCommentsAux fuel rest
      | none => c :: removeBlockCommentsAux fuel cs
    else c :: removeBlockCommentsAux fuel cs

/-- Token of one of the `dangerous_patterns` regexes: a case-insensitive
literal, `\s*`, or `\s+`. -/
inductive SqlTok where
  | lit (s : List Char)
  | ws0
  | ws1

/-- Match a token sequence anchored at the head, returning the remainder. -/
def matchSqlTokens : List SqlTok → List Char → Option (List Char)
  | [], l => some l
  | .lit p :: rest, l =>
    if isPrefixCI p l then matchSqlTokens rest (l.drop p.length) else none
  | .ws0 :: rest, l => matchSqlTokens rest (l.dropWhile pyIsSpace)
  | .ws1 :: rest, l =>
    match l with
    | c :: cs =>
      if pyIsSpace c then matchSqlTokens rest ((c :: cs).dropWhile pyIsSpace)
      else none
    | [] => none

/-- `re.sub` scan deleting matches of one dangerous pattern. -/
def removeSqlPatternAux (toks : List SqlTok) : Nat → List Char → List Char
  | 0, l => l
  | _ + 1, [] => []
  | fuel + 1, c :: cs =>
    match matchSqlTokens toks (c :: cs) with
    | some rest => removeSqlPatternAux toks fuel rest
    | none => c :: removeSqlPatternAux toks fuel cs

/-- The `dangerous_patterns` table of `sanitize_sql_input`, tokenized. -/
def dangerous_patterns : List (List SqlTok) :=
  [[.lit [';'], .ws0, .lit ['d', 'r', 'o', 'p'], .ws1, .lit ['t', 'a', 'b', 'l', 'e']],
   [.lit [';'], .ws0, .lit ['d', 'e', 'l', 'e', 't', 'e'], .ws1,
    .lit ['f', 'r', 'o', 'm']],
   [.lit [';'], .ws0, .lit ['u', 'p', 'd', 'a', 't', 'e'], .ws1],
   [.lit [';'], .ws0, .lit ['i', 'n', 's', 'e', 'r', 't'], .ws1,
    .lit ['i', 'n', 't', 'o']],
   [.lit ['u', 'n', 'i', 'o', 'n'], .ws1, .lit ['s', 'e', 'l', 'e', 'c', 't']],
   [.lit ['\''], .ws0, .lit ['o', 'r'], .ws1, .lit ['\'', '1', '\''], .ws0,
    .lit ['='], .ws0, .lit ['\'', '1']],
   [.lit ['\''], .ws0, .lit ['o', 'r'], .ws1, .lit ['1'], .ws0, .lit ['='], .ws0,
    .lit ['1']]]

/-- `sanitize_sql_input`: line comments, block comments, the dangerous-pattern
table, then `strip()`. -/
def sanitize_sql_input (s : String) : String :=
  if s.isEmpty then s
  else
    let l1 := joinNl ((splitOnNl s.toList).map stripDashDash)
    let l2 := removeBlockCommentsAux l1.length l1
    let l3 := dangerous_patterns.foldl
      (fun acc toks => removeSqlPatternAux toks acc.length acc) l2
    String.mk (pyStripList l3)

/-- Python's truthiness-guarded truncation `if max_length and len(text) >
max_length: text = text[:max_length]`. -/
def pyTruncate (s : String) (max_length : Option Nat) : String :=
  match max_length with
  | none => s
  | some m => if m ≠ 0 ∧ s.toList.length > m then String.mk (s.toList.take m) else s

/-- `sanitize_customer_input`: empty input yields `""`; otherwise truncate to
`max_length` (default 10000), remove script content, strip SQL-injection
patterns, HTML-escape, and `strip()`. -/
def sanitize_customer_input (text : String) (max_length : Option Nat := some 10000) :
    String :=
  if text.isEmpty then ""
  else pyStrip (sanitize_html (sanitize_sql_input (remove_script_tags
    (pyTruncate text max_length))))

theorem string_eq_empty_of_isEmpty {s : String} (h : s.isEmpty = true) : s = "" := by
  cases s with
  | mk data =>
    cases data with
    | nil => rfl
    | cons c cs =>
      simp [String.isEmpty, String.endPos] at h
      have hb := congrArg String.Pos.byteIdx h
      simp at hb
      have hpos := Char.utf8Size_pos c
      omega

theorem htmlEscapeChar_not_special (c : Char) :
    ∀ d ∈ htmlEscapeChar c, d ≠ '<' ∧ d ≠ '>' ∧ d ≠ '"' := by
  intro d hd
  unfold htmlEscapeChar at hd
  split at hd
  · simp at hd
    rcases hd with rfl | rfl | rfl | rfl | rfl <;> refine ⟨by decide, by decide, by decide⟩
  · split at hd
    · simp at hd
      rcases hd with rfl | rfl | rfl | rfl <;> refine ⟨by decide, by decide, by decide⟩
    · split at hd
      · simp at hd
        rcases hd with rfl | rfl | rfl | rfl <;> refine ⟨by decide, by decide, by decide⟩
      · split at hd
        · simp at hd
          rcases hd with rfl | rfl | rfl | rfl | rfl | rfl <;>
            refine ⟨by decide, by decide, by decide⟩
        · split at hd
          · simp at hd
            rcases hd with rfl | rfl | rfl | rfl | rfl | rfl <;>
              refine ⟨by decide, by decide, by decide⟩
          · rename_i h1 h2 h3 h4 h5
            simp at hd
            subst hd
            refine ⟨?_, ?_, ?_⟩
            · intro hc; rw [hc] at h2; simp at h2
            · intro hc; rw [hc] at h3; simp at h3
            · intro hc; rw [hc] at h4; simp at h4

theorem sanitize_html_not_special (s : String) :
    ∀ d ∈ (sanitize_html s).toList, d ≠ '<' ∧ d ≠ '>' ∧ d ≠ '"' := by
  intro d hd
  unfold sanitize_html at hd
  split at hd
  · rename_i he
    rw [string_eq_empty_of_isEmpty he] at hd
    simp at hd
  · have hd' : d ∈ s.toList.flatMap htmlEscapeChar := hd
    obtain ⟨c, _, hcd⟩ := List.mem_flatMap.mp hd'
    exact htmlEscapeChar_not_special c d hcd

theorem mem_of_mem_pyStripList {l : List Char} {d : Char} (h : d ∈ pyStripList l) :
    d ∈ l := by
  unfold pyStripList at h
  rw [List.mem_reverse] at h
  have h2 := (List.dropWhile_suffix pyIsSpace).mem h
  rw [List.mem_reverse] at h2
  exact (List.dropWhile_suffix pyIsSpace).mem h2

theorem string_mk_toList (s : String) : String.mk s.toList = s := by
  cases s
  rfl

theorem string_isEmpty_mk_cons (c : Char) (t : List Char) :
    (String.mk (c :: t)).isEmpty = false := by
  cases hx : (String.mk (c :: t)).isEmpty
  · rfl
  · have := congrArg String.data (string_eq_empty_of_isEmpty hx)
    simp at this

theorem mem_lt_of_pyContains_script {out : String}
    (h : pyContains out "<script" = true) : '<' ∈ out.toList := by
  unfold pyContains at h
  obtain ⟨t, ht, hpre⟩ := List.any_eq_true.mp h
  have hsuf : t <:+ out.toList := (List.mem_tails t out.toList).mp ht
  have hrw : "<script".toList = ['<', 's', 'c', 'r', 'i', 'p', 't'] := rfl
  rw [hrw] at hpre
  refine hsuf.mem ?_
  cases t with
  | nil => simp [List.isPrefixOf] at hpre
  | cons a t' =>
    simp only [List.isPrefixOf, Bool.and_eq_true, beq_iff_eq] at hpre
    rw [← hpre.1]
    exact List.mem_cons_self _ _

/-- C10: `sanitize_customer_input` returns `""` on empty input; on any input
its output contains no raw `<`, `>` or `"` character (every HTML special
character has been escaped by the final `sanitize_html` pass) and hence
contains no `<script` occurrence at all; and the characters beyond the
`max_length` cut never influence the result — the input is truncated first. -/
theorem sanitize_customer_input_escapes (s : String) (m : Option Nat) :
    (s = "" → sanitize_customer_input s m = "") ∧
    (∀ d ∈ (sanitize_customer_input s m).toList, d ≠ '<' ∧ d ≠ '>' ∧ d ≠ '"') ∧
    pyContains (sanitize_customer_input s m) "<script" = false ∧
    (∀ mv : Nat, m = some mv → mv ≠ 0 →
      sanitize_customer_input s m =
        sanitize_customer_input (String.mk (s.toList.take mv)) m) := by
  have hb : ∀ d ∈ (sanitize_customer_input s m).toList,
      d ≠ '<' ∧ d ≠ '>' ∧ d ≠ '"' := by
    intro d hd
    unfold sanitize_customer_input at hd
    split at hd
    · simp at hd
    · have hd' : d ∈ pyStripList (sanitize_html (sanitize_sql_input
        (remove_script_tags (pyTruncate s m)))).toList := hd
      exact sanitize_html_not_special _ d (mem_of_mem_pyStripList hd')
  refine ⟨?_, hb, ?_, ?_⟩
  · intro hs
    subst hs
    rfl
  · cases hcon : pyContains (sanitize_customer_input s m) "<script"
    · rfl
    · exact absurd rfl (hb '<' (mem_lt_of_pyContains_script hcon)).1
  · intro mv hm hmv
    subst hm
    by_cases he : s.isEmpty = true
    · rw [string_eq_empty_of_isEmpty he]
      have h0 : ("" : String).toList = [] := rfl
      rw [h0, List.take_nil]
    · have hminle : mv ⊓ s.toList.length ≤ mv := Nat.min_le_left _ _
      have htrunc : pyTruncate s (some mv) =
          pyTruncate (String.mk (s.toList.take mv)) (some mv) := by
        unfold pyTruncate
        dsimp only
        rw [show (String.mk (s.toList.take mv)).toList = s.toList.take mv from rfl,
          List.length_take]
        by_cases hgt : s.toList.length > mv
        · rw [if_pos ⟨hmv, hgt⟩,
            if_neg (fun hc => absurd hc.2 (Nat.not_lt.mpr hminle))]
        · rw [if_neg (fun hc => hgt hc.2),
            if_neg (fun hc => absurd hc.2 (Nat.not_lt.mpr hminle))]
          rw [List.take_of_length_le (by omega), string_mk_toList]
      have hmk : (String.mk (s.toList.take mv)).isEmpty = false := by
        obtain ⟨c, cs, hsl⟩ : ∃ c cs, s.toList = c :: cs := by
          cases hsl : s.toList with
          | nil =>
            exfalso
            apply he
            have h2 := string_mk_toList s
            rw [hsl] at h2
            rw [← h2]
            rfl
          | cons c cs => exact ⟨c, cs, rfl⟩
        obtain ⟨k, rfl⟩ : ∃ k, mv = k + 1 := ⟨mv - 1, by omega⟩
        rw [hsl]
        exact string_isEmpty_mk_cons c (cs.take k)
      have hsne : s.isEmpty = false := by
        cases hx : s.isEmpty
        · rfl
        · exact absurd hx he
      unfold sanitize_customer_input
      simp only [hsne, hmk, htrunc, Bool.false_eq_true, if_false]

/-- Witness for C10: the empty input maps to `""`; on "<b>" the escaped
output's ampersand is checked against the no-raw-character property; and on
"abcdef" with limit 3 the result equals the result on the pre-truncated
input. -/
theorem sanitize_customer_input_escapes_witness :
    sanitize_customer_input "" (some 10000) = "" ∧
    ('&' ≠ '<' ∧ '&' ≠ '>' ∧ '&' ≠ '"') ∧
    sanitize_customer_input "abcdef" (some 3) =
      sanitize_customer_input (String.mk ("abcdef".toList.take 3)) (some 3) :=
  ⟨(sanitize_customer_input_escapes "" (some 10000)).1 rfl,
   (sanitize_customer_input_escapes "<b>" (some 10000)).2.1 '&' (by decide),
   (sanitize_customer_input_escapes "abcdef" (some 3)).2.2.2 3 rfl (by decide)⟩
